import Mathlib

/-!
Shallow embedding of the omnishock protocol-translation core
(`src/main.rs`): the value codec, the 7- and 20-byte packet builders, the
session-negotiation handshake, and the frame pump's response handling.

Machine integers are modelled as `Int` (for Rust `i16`, with the range
invariant `-32768 ≤ n ≤ 32767` carried as hypotheses where needed) and
`Nat` (for Rust `u8`/`u16` values, kept in range by construction).
Rust's truncating division is `Int.tdiv`; the arithmetic right shift
`wrapping_shr(8)` on `i16` is floor division by 256, i.e. `Int.ediv`
with the positive divisor 256.
-/

namespace Omnishock

/-- `DUALSHOCK_MAGIC`: the DualShock protocol uses 0x5A in many places. -/
def DUALSHOCK_MAGIC : Nat := 0x5A

/-- `SEVEN_BYTE_OK_RESPONSE`: Johnny Chung Lee's firmware responds with "k" on success. -/
def SEVEN_BYTE_OK_RESPONSE : Char := 'k'

/-- `SEVEN_BYTE_ERR_RESPONSE`: and with "x" when it receives input it does not recognise. -/
def SEVEN_BYTE_ERR_RESPONSE : Char := 'x'

/-- `TWENTY_BYTE_OK_HEADER`: Aaron Clovsky's firmware responds with vibration
information which begins with the `DUALSHOCK_MAGIC`. -/
def TWENTY_BYTE_OK_HEADER : Nat := DUALSHOCK_MAGIC

/-- `U8_TO_U16_MAGNITUDE = u16::max_value() / u8::max_value() as u16`. -/
def U8_TO_U16_MAGNITUDE : Nat := 65535 / 255

/-- `i16::MIN`. -/
def i16_min : Int := -32768

/-- `i16::MAX`. -/
def i16_max : Int := 32767

/-- Rust `i16::saturating_add`. -/
def i16_saturating_add (a b : Int) : Int :=
  let s := a + b
  if s < i16_min then i16_min else if i16_max < s then i16_max else s

/-- Rust `i16` subtraction under release (two's-complement wrapping) semantics,
used for `TriggerLeft - TriggerRight` in the right-stick trigger mode. -/
def i16_wrapping_sub (a b : Int) : Int :=
  Int.emod (a - b + 32768) 65536 - 32768

/-- Rust `i16::checked_neg`: `none` models the overflow panic on `i16::MIN`. -/
def i16_checked_neg (a : Int) : Option Int :=
  if a = i16_min then none else some (-a)

/-- Rust `(v) as u8` on an `i16` value `v`: truncation to the low 8 bits. -/
def u8_of_i16 (v : Int) : Nat :=
  (Int.emod v 256).toNat

/-- `number.wrapping_shr(8)` on `i16`: an arithmetic (sign-preserving) right
shift by 8, i.e. floor division by 256. -/
def i16_wrapping_shr8 (number : Int) : Int :=
  Int.ediv number 256

/-- `convert_for_dualshock(number: i16) -> u8`:
`(number.wrapping_shr(8) + 0x80) as u8`. -/
def convert_for_dualshock (number : Int) : Nat :=
  u8_of_i16 (i16_wrapping_shr8 number + 0x80)

/-- `convert_button_to_analog::<i16>`: pressed maps to `i16::MAX`,
released to `i16::MIN`. -/
def convert_button_to_analog_i16 (button : Bool) : Int :=
  if button then i16_max else i16_min

/-- `whats_the_midpoint_of_a::<u8>() = (u8::MAX + u8::MIN) / 2`. -/
def whats_the_midpoint_of_u8 : Nat := (255 + 0) / 2

/-- `whats_the_midpoint_of_a::<i16>() = (i16::MAX + i16::MIN) / 2`,
with Rust's truncating division. -/
def whats_the_midpoint_of_i16 : Int := Int.tdiv (i16_max + i16_min) 2

/-- `convert_analog_to_button::<u8>`: strictly above the midpoint. -/
def convert_analog_to_button_u8 (analog : Nat) : Bool :=
  decide (whats_the_midpoint_of_u8 < analog)

/-- `convert_analog_to_button::<i16>`: strictly above the midpoint. -/
def convert_analog_to_button_i16 (analog : Int) : Bool :=
  decide (whats_the_midpoint_of_i16 < analog)

/-- `convert_half_axis_positive::<i16>`: `i16::MAX` is special-cased as a
fixed point; otherwise the value is shifted by `i16::MIN / 2` (Rust
truncating division) and doubled, both saturating. -/
def convert_half_axis_positive (stick : Int) : Int :=
  if stick = i16_max then i16_max
  else
    let two_in_target_type : Int := 2
    let half_minimum := Int.tdiv i16_min two_in_target_type
    let normalised_stick := i16_saturating_add stick half_minimum
    i16_saturating_add normalised_stick normalised_stick

/-- `convert_half_axis_negative::<i16>`:
`convert_half_axis_positive(stick.saturating_add(1).neg())`.  The negation is
written as plain `Int` negation; `convert_half_axis_negative_checked` below
carries the overflow-checked (panicking) negation semantics. -/
def convert_half_axis_negative (stick : Int) : Int :=
  convert_half_axis_positive (-(i16_saturating_add stick 1))

/-- `convert_half_axis_negative` with Rust's overflow check on `.neg()` made
explicit: `none` models the debug-mode panic on negating `i16::MIN`. -/
def convert_half_axis_negative_checked (stick : Int) : Option Int :=
  (i16_checked_neg (i16_saturating_add stick 1)).map convert_half_axis_positive

/-- `normalise_stick_as_dualshock2(x: &mut i16, y: &mut i16)`: each coordinate
is saturating-incremented by a tenth of itself (Rust truncating division),
shrinking the usable area by 10% to match the DualShock 2 outer deadzone. -/
def normalise_stick_as_dualshock2 (x y : Int) : Int × Int :=
  (i16_saturating_add x (Int.tdiv x 10), i16_saturating_add y (Int.tdiv y 10))

/-- The SDL controller view the packet builders read: the digital buttons and
signed 16-bit axes used by `controller_map_twenty_byte`.  Field names follow
the `sdl2::controller::{Button, Axis}` identifiers queried in the source. -/
structure ControllerState where
  dPadLeft : Bool
  dPadDown : Bool
  dPadRight : Bool
  dPadUp : Bool
  start : Bool
  rightStickButton : Bool
  leftStickButton : Bool
  back : Bool
  x : Bool
  a : Bool
  b : Bool
  y : Bool
  rightShoulder : Bool
  leftShoulder : Bool
  guide : Bool
  triggerRight : Int
  triggerLeft : Int
  rightX : Int
  rightY : Int
  leftX : Int
  leftY : Int
deriving DecidableEq

/-- The all-released, centered controller state. -/
def neutral_controller : ControllerState :=
  { dPadLeft := false, dPadDown := false, dPadRight := false, dPadUp := false
    start := false, rightStickButton := false, leftStickButton := false
    back := false, x := false, a := false, b := false, y := false
    rightShoulder := false, leftShoulder := false, guide := false
    triggerRight := 0, triggerLeft := 0
    rightX := 0, rightY := 0, leftX := 0, leftY := 0 }

/-- A `bitflags` bit: the flag's byte value when set, 0 when clear. -/
def bitIf (set : Bool) (bit : Nat) : Nat :=
  if set then bit else 0

/-- Bitwise NOT on a `u8` value (`!bits` in the source); the builders only
apply it to bytes in `0..=255`. -/
def u8_not (bits : Nat) : Nat :=
  255 - bits % 256

/-- `controller_map_twenty_byte(controller, trigger_mode, normalise_sticks)`:
the 20-byte extended frame.  `trigger_mode` is matched as a string exactly as
in the source (`"right-stick"`, `"cross-and-square"`, anything else is the
normal mapping). -/
def controller_map_twenty_byte (controller : ControllerState)
    (trigger_mode : String) (normalise_sticks : Bool) : List Nat :=
  -- buttons1
  let dpad_left_value : Int := convert_button_to_analog_i16 controller.dPadLeft
  let dpad_down_value : Int := convert_button_to_analog_i16 controller.dPadDown
  let dpad_right_value : Int := convert_button_to_analog_i16 controller.dPadRight
  let dpad_up_value : Int := convert_button_to_analog_i16 controller.dPadUp
  let start_value : Int := convert_button_to_analog_i16 controller.start
  let right_stick_value : Int := convert_button_to_analog_i16 controller.rightStickButton
  let left_stick_value : Int := convert_button_to_analog_i16 controller.leftStickButton
  let select_value : Int := convert_button_to_analog_i16 controller.back
  -- buttons2 (before the trigger-mode reassignments)
  let square_value_0 : Int := convert_button_to_analog_i16 controller.x
  let cross_value_0 : Int := convert_button_to_analog_i16 controller.a
  let circle_value : Int := convert_button_to_analog_i16 controller.b
  let triangle_value : Int := convert_button_to_analog_i16 controller.y
  let r1_button_value : Int := convert_button_to_analog_i16 controller.rightShoulder
  let l1_button_value : Int := convert_button_to_analog_i16 controller.leftShoulder
  let r2_button_value_0 : Int := convert_half_axis_positive controller.triggerRight
  let l2_button_value_0 : Int := convert_half_axis_positive controller.triggerLeft
  -- sticks
  let right_stick_x_value : Int := controller.rightX
  let right_stick_y_value_0 : Int := controller.rightY
  let left_stick_x_value : Int := controller.leftX
  let left_stick_y_value : Int := controller.leftY
  -- handle trigger_mode: (l2, r2, cross, square, right_stick_y) after the match
  let tmode :=
    if trigger_mode = "right-stick" then
      (convert_half_axis_negative controller.rightY,
       convert_half_axis_positive controller.rightY,
       convert_button_to_analog_i16 controller.a,
       convert_button_to_analog_i16 controller.x,
       i16_wrapping_sub controller.triggerLeft controller.triggerRight)
    else if trigger_mode = "cross-and-square" then
      (convert_button_to_analog_i16 controller.a,
       convert_button_to_analog_i16 controller.x,
       convert_half_axis_positive controller.triggerRight,
       convert_half_axis_positive controller.triggerLeft,
       right_stick_y_value_0)
    else
      (l2_button_value_0, r2_button_value_0, cross_value_0, square_value_0,
       right_stick_y_value_0)
  let l2_button_value := tmode.1
  let r2_button_value := tmode.2.1
  let cross_value := tmode.2.2.1
  let square_value := tmode.2.2.2.1
  let right_stick_y_value := tmode.2.2.2.2
  -- optional stick normalisation
  let rsticks :=
    if normalise_sticks then
      normalise_stick_as_dualshock2 right_stick_x_value right_stick_y_value
    else (right_stick_x_value, right_stick_y_value)
  let lsticks :=
    if normalise_sticks then
      normalise_stick_as_dualshock2 left_stick_x_value left_stick_y_value
    else (left_stick_x_value, left_stick_y_value)
  -- Buttons1 bitflags
  let buttons1 :=
    bitIf (convert_analog_to_button_i16 dpad_left_value) 0b10000000 |||
    bitIf (convert_analog_to_button_i16 dpad_down_value) 0b01000000 |||
    bitIf (convert_analog_to_button_i16 dpad_right_value) 0b00100000 |||
    bitIf (convert_analog_to_button_i16 dpad_up_value) 0b00010000 |||
    bitIf (convert_analog_to_button_i16 start_value) 0b00001000 |||
    bitIf (convert_analog_to_button_i16 right_stick_value) 0b00000100 |||
    bitIf (convert_analog_to_button_i16 left_stick_value) 0b00000010 |||
    bitIf (convert_analog_to_button_i16 select_value) 0b00000001
  -- Buttons2 bitflags
  let buttons2 :=
    bitIf (convert_analog_to_button_i16 square_value) 0b10000000 |||
    bitIf (convert_analog_to_button_i16 cross_value) 0b01000000 |||
    bitIf (convert_analog_to_button_i16 circle_value) 0b00100000 |||
    bitIf (convert_analog_to_button_i16 triangle_value) 0b00010000 |||
    bitIf (convert_analog_to_button_i16 r1_button_value) 0b00001000 |||
    bitIf (convert_analog_to_button_i16 l1_button_value) 0b00000100 |||
    bitIf (convert_analog_to_button_i16 r2_button_value) 0b00000010 |||
    bitIf (convert_analog_to_button_i16 l2_button_value) 0b00000001
  let mode_footer : Nat := if controller.guide then 0xAA else 0x55
  DUALSHOCK_MAGIC ::
    -- DualShock protocol considers 0 to mean pressed, so the bitflags are NOTed
    u8_not buttons1 ::
    u8_not buttons2 ::
    -- Analog sticks
    convert_for_dualshock rsticks.1 ::
    convert_for_dualshock rsticks.2 ::
    convert_for_dualshock lsticks.1 ::
    convert_for_dualshock lsticks.2 ::
    -- Pressure values
    convert_for_dualshock dpad_right_value ::
    convert_for_dualshock dpad_left_value ::
    convert_for_dualshock dpad_up_value ::
    convert_for_dualshock dpad_down_value ::
    convert_for_dualshock triangle_value ::
    convert_for_dualshock circle_value ::
    convert_for_dualshock cross_value ::
    convert_for_dualshock square_value ::
    convert_for_dualshock l1_button_value ::
    convert_for_dualshock r1_button_value ::
    convert_for_dualshock l2_button_value ::
    convert_for_dualshock r2_button_value ::
    mode_footer :: []

/-- `controller_map_seven_byte`: the twenty-byte map truncated to its first
seven bytes (`map.truncate(7)`). -/
def controller_map_seven_byte (controller : ControllerState)
    (trigger_mode : String) (normalise_sticks : Bool) : List Nat :=
  (controller_map_twenty_byte controller trigger_mode normalise_sticks).take 7

/-- `ControllerEmulatorPacketType`: the communication dialect decided by the
handshake.  `none` is the fallback (log-only) mode. -/
inductive ControllerEmulatorPacketType
  | none
  | sevenByte
  | twentyByte
deriving DecidableEq

/-- The fixed twenty-byte neutral-state probe packet the session negotiator
transmits (the literal in `send_to_ps2_controller_emulator_via`). -/
def handshake_probe_packet : List Nat :=
  [DUALSHOCK_MAGIC,
   u8_not 0,  -- !Buttons1::empty().bits()
   u8_not 0,  -- !Buttons2::empty().bits()
   0x80, 0x80, 0x80, 0x80,  -- sticks
   0x00, 0x00, 0x00, 0x00, 0x00, 0x00, 0x00, 0x00, 0x00, 0x00, 0x00, 0x00,  -- pressure
   0x55]  -- mode: normal

/-- The handshake's classification of the first response byte
(`response[0]`): the magic byte selects the twenty-byte dialect, the
seven-byte firmware's error character selects the seven-byte dialect, and
anything else leaves the fallback mode. -/
def handshake_classify (first_byte : Nat) : ControllerEmulatorPacketType :=
  if first_byte = TWENTY_BYTE_OK_HEADER then .twentyByte
  else if first_byte = SEVEN_BYTE_ERR_RESPONSE.toNat then .sevenByte
  else .none

/-- `send_event_to_controller`: one steady-state update.  `device_bytes` are
the bytes the serial device would deliver to the 4-byte read buffer (a read
error or silence is the empty list).  Returns the pair of (bytes written to
the serial transport, the response vector returned to the caller — the read
buffer truncated to the number of bytes received). -/
def send_event_to_controller (communication_mode : ControllerEmulatorPacketType)
    (controller : ControllerState) (trigger_mode : String)
    (normalise_sticks : Bool) (device_bytes : List Nat) : List Nat × List Nat :=
  match communication_mode with
  | .none =>
      -- the packet is built for logging but never written; nothing is read,
      -- so the response vector is truncated to zero bytes
      ([], [])
  | .sevenByte =>
      let state := controller_map_seven_byte controller trigger_mode normalise_sticks
      (state, device_bytes.take 4)
  | .twentyByte =>
      let state := controller_map_twenty_byte controller trigger_mode normalise_sticks
      (state, device_bytes.take 4)

/-- Outcome of the frame pump's haptic block on one response vector. -/
inductive RumbleOutcome
  | panics
  | noCommand
  | command (small_motor_intensity large_motor_intensity duration_ms : Nat)
deriving DecidableEq

/-- The frame pump's haptic block: if the response is non-empty, read
`response[1]` and `response[2]` (an out-of-bounds index is a panic), rescale
each by `U8_TO_U16_MAGNITUDE` and issue a 500 ms rumble command. -/
def frame_haptic_update (response : List Nat) : RumbleOutcome :=
  if response.isEmpty then .noCommand
  else
    match response.get? 1, response.get? 2 with
    | some b1, some b2 =>
        .command (b1 * U8_TO_U16_MAGNITUDE) (b2 * U8_TO_U16_MAGNITUDE) 500
    | _, _ => .panics

/-! ### Helper lemmas -/

/-- The twenty-byte map always has exactly 20 bytes: the returned list literal
has 20 entries on every branch. -/
theorem controller_map_twenty_byte_length (c : ControllerState) (tm : String)
    (ns : Bool) : (controller_map_twenty_byte c tm ns).length = 20 := by
  simp [controller_map_twenty_byte]

/-- On a response of at least three bytes, the haptic block issues the
command built from bytes 1 and 2. -/
theorem frame_haptic_update_of_long (r : List Nat) (h : 3 ≤ r.length) :
    frame_haptic_update r =
      RumbleOutcome.command ((r.get? 1).getD 0 * U8_TO_U16_MAGNITUDE)
        ((r.get? 2).getD 0 * U8_TO_U16_MAGNITUDE) 500 := by
  match r, h with
  | a :: b :: c :: rest, _ => rfl

/-- The haptic block issues a command only on responses of at least three
bytes, and always with a 500 ms duration. -/
theorem frame_haptic_update_command_inv (r : List Nat) (s l d : Nat)
    (h : frame_haptic_update r = RumbleOutcome.command s l d) :
    3 ≤ r.length ∧ d = 500 := by
  match r with
  | [] => exact RumbleOutcome.noConfusion h
  | [a] => exact RumbleOutcome.noConfusion h
  | [a, b] => exact RumbleOutcome.noConfusion h
  | a :: b :: c :: rest =>
      have e : frame_haptic_update (a :: b :: c :: rest) =
          RumbleOutcome.command (b * U8_TO_U16_MAGNITUDE)
            (c * U8_TO_U16_MAGNITUDE) 500 := rfl
      rw [e] at h
      refine ⟨by simp only [List.length_cons]; omega, ?_⟩
      cases h
      rfl

/-! ### Claim theorems -/

/-- Claim C1: for a neutral controller state (all buttons released, all axes
0), Normal trigger mode and stick normalisation on, the 20-byte builder
returns exactly `[0x5A, 0xFF, 0xFF, 0x80, 0x80, 0x80, 0x80, 0 × 12, 0x55]`,
and this is byte-identical to the fixed handshake probe packet the session
negotiator transmits. -/
theorem neutral_twenty_byte_matches_probe :
    controller_map_twenty_byte neutral_controller "normal" true =
      [0x5A, 0xFF, 0xFF, 0x80, 0x80, 0x80, 0x80,
       0, 0, 0, 0, 0, 0, 0, 0, 0, 0, 0, 0, 0x55] ∧
    controller_map_twenty_byte neutral_controller "normal" true =
      handshake_probe_packet := by
  decide

/-- Claim C2: for every controller state, trigger mode and normalisation
flag, the 7-byte builder output is exactly the first 7 bytes of the 20-byte
builder output, with lengths 7 and 20 respectively. -/
theorem seven_byte_is_truncation_of_twenty (c : ControllerState) (tm : String)
    (ns : Bool) :
    controller_map_seven_byte c tm ns =
      (controller_map_twenty_byte c tm ns).take 7 ∧
    (controller_map_seven_byte c tm ns).length = 7 ∧
    (controller_map_twenty_byte c tm ns).length = 20 := by
  refine ⟨rfl, ?_, controller_map_twenty_byte_length c tm ns⟩
  simp [controller_map_seven_byte, List.length_take,
    controller_map_twenty_byte_length]

/-- Claim C3: the handshake classifies the session from the first response
byte — `0x5A` gives the twenty-byte (Extended) dialect, the minimal
dialect's error character `'x'` (120) gives the seven-byte (Minimal)
dialect, anything else gives the fallback (Unknown) mode — and in the
fallback mode a steady-state update writes no bytes to the transport (and
returns an empty response vector). -/
theorem handshake_classification (first_byte : Nat) (c : ControllerState)
    (tm : String) (ns : Bool) (dev : List Nat) :
    handshake_classify first_byte =
      (if first_byte = 0x5A then ControllerEmulatorPacketType.twentyByte
       else if first_byte = 120 then ControllerEmulatorPacketType.sevenByte
       else ControllerEmulatorPacketType.none) ∧
    (send_event_to_controller .none c tm ns dev).1 = [] ∧
    (send_event_to_controller .none c tm ns dev).2 = [] := by
  exact ⟨rfl, rfl, rfl⟩

/-- Claim C4 counterexample: in the Minimal (seven-byte) dialect, a
three-byte device response (here `'k', 16, 32`) does issue a rumble
command — refuting the claim that rumble is only issued when the session
dialect is Extended. -/
theorem rumble_issued_in_minimal_dialect :
    frame_haptic_update
      (send_event_to_controller .sevenByte neutral_controller "normal" true
        [SEVEN_BYTE_OK_RESPONSE.toNat, 16, 32]).2 =
      RumbleOutcome.command (16 * U8_TO_U16_MAGNITUDE)
        (32 * U8_TO_U16_MAGNITUDE) 500 ∧
    frame_haptic_update
      (send_event_to_controller .sevenByte neutral_controller "normal" true
        [SEVEN_BYTE_OK_RESPONSE.toNat, 16, 32]).2 ≠
      RumbleOutcome.noCommand := by
  decide

/-- Claim C4, amended: a steady-state update issues a rumble command
whenever its response vector has at least three bytes, in any dialect
(in particular also Minimal); when a command is issued, the small-motor
intensity is response byte 1 and the large-motor intensity response byte 2,
each rescaled by `U8_TO_U16_MAGNITUDE` (= 257), with a fixed 500 ms
duration; fallback-mode (Unknown) updates never issue a rumble command
because their response is always empty. -/
theorem rumble_from_update (m : ControllerEmulatorPacketType)
    (c : ControllerState) (tm : String) (ns : Bool) (dev : List Nat) :
    (m = ControllerEmulatorPacketType.none →
      frame_haptic_update (send_event_to_controller m c tm ns dev).2 =
        RumbleOutcome.noCommand) ∧
    (3 ≤ (send_event_to_controller m c tm ns dev).2.length →
      frame_haptic_update (send_event_to_controller m c tm ns dev).2 =
        RumbleOutcome.command
          (((send_event_to_controller m c tm ns dev).2.get? 1).getD 0 *
            U8_TO_U16_MAGNITUDE)
          (((send_event_to_controller m c tm ns dev).2.get? 2).getD 0 *
            U8_TO_U16_MAGNITUDE)
          500) ∧
    (∀ s l d,
      frame_haptic_update (send_event_to_controller m c tm ns dev).2 =
        RumbleOutcome.command s l d →
      3 ≤ (send_event_to_controller m c tm ns dev).2.length ∧ d = 500) := by
  refine ⟨?_, ?_, ?_⟩
  · intro hm
    subst hm
    rfl
  · intro h
    exact frame_haptic_update_of_long _ h
  · intro s l d h
    exact frame_haptic_update_command_inv _ s l d h

/-- Claim C4 witness: the amended theorem at concrete inputs — a
fallback-mode update issues no command, and an Extended update with a
4-byte response issues the rescaled command. -/
theorem rumble_from_update_witness :
    frame_haptic_update
      (send_event_to_controller .none neutral_controller "normal" true
        [90, 1, 2, 3]).2 = RumbleOutcome.noCommand ∧
    frame_haptic_update
      (send_event_to_controller .twentyByte neutral_controller "normal" true
        [90, 5, 6, 85]).2 =
      RumbleOutcome.command (5 * U8_TO_U16_MAGNITUDE)
        (6 * U8_TO_U16_MAGNITUDE) 500 := by
  constructor
  · exact (rumble_from_update .none neutral_controller "normal" true
      [90, 1, 2, 3]).1 rfl
  · have h := (rumble_from_update .twentyByte neutral_controller "normal" true
      [90, 5, 6, 85]).2.1 (by decide)
    exact h.trans (by decide)

/-- Claim C5 (code bug): when the Minimal-dialect device acknowledges with
the single byte `'k'`, the update's response vector is `[107]` — non-empty
but of length 1 < 3 — and the frame pump's subsequent access to response
byte 1 is out of bounds (a panic), refuting the claimed in-bounds safety
property. -/
theorem minimal_single_byte_ack_out_of_bounds :
    (send_event_to_controller .sevenByte neutral_controller "normal" true
      [SEVEN_BYTE_OK_RESPONSE.toNat]).2 = [107] ∧
    ((send_event_to_controller .sevenByte neutral_controller "normal" true
      [SEVEN_BYTE_OK_RESPONSE.toNat]).2).length < 3 ∧
    frame_haptic_update
      (send_event_to_controller .sevenByte neutral_controller "normal" true
        [SEVEN_BYTE_OK_RESPONSE.toNat]).2 = RumbleOutcome.panics := by
  decide

/-- Claim C6: for every in-range i16 axis value `n`, the wire byte is
`(n >> 8) + 0x80` with an arithmetic shift (here the 8-bit truncation is the
identity because the sum lies in `0..=255`); negative values map strictly
below `0x80` and non-negative ones to `0x80` or above; and with stick
normalisation the right stick `(-24000, 16500)` and left stick
`(255, -4096)` produce the stick bytes `[0x18, 0xC6, 0x81, 0x6E]`. -/
theorem convert_for_dualshock_spec (n : Int) (h1 : i16_min ≤ n)
    (h2 : n ≤ i16_max) :
    convert_for_dualshock n = (Int.ediv n 256 + 0x80).toNat ∧
    (n < 0 → convert_for_dualshock n < 0x80) ∧
    (0 ≤ n → 0x80 ≤ convert_for_dualshock n) ∧
    convert_for_dualshock (normalise_stick_as_dualshock2 (-24000) 16500).1 =
      0x18 ∧
    convert_for_dualshock (normalise_stick_as_dualshock2 (-24000) 16500).2 =
      0xC6 ∧
    convert_for_dualshock (normalise_stick_as_dualshock2 255 (-4096)).1 =
      0x81 ∧
    convert_for_dualshock (normalise_stick_as_dualshock2 255 (-4096)).2 =
      0x6E := by
  simp only [i16_min, i16_max] at h1 h2
  simp only [convert_for_dualshock, u8_of_i16, i16_wrapping_shr8]
  have hdiv : Int.ediv n 256 = n / 256 := rfl
  have hmod : ∀ m : Int, Int.emod m 256 = m % 256 := fun _ => rfl
  simp only [hdiv, hmod]
  refine ⟨?_, ?_, ?_, by decide, by decide, by decide, by decide⟩ <;> omega

/-- Claim C6 witness: the bounds at the concrete axis values `-1` and `0`. -/
theorem convert_for_dualshock_spec_witness :
    convert_for_dualshock (-1) < 0x80 ∧ 0x80 ≤ convert_for_dualshock 0 :=
  ⟨(convert_for_dualshock_spec (-1) (by decide) (by decide)).2.1 (by decide),
   (convert_for_dualshock_spec 0 (by decide) (by decide)).2.2.1 (by decide)⟩

/-- Claim C7: `convert_half_axis_positive` fixes `i16::MAX`; maps every
input `≤ 0` (including `i16::MIN`) to `i16::MIN`; maps `i16::MAX/2 + 1` to
`0`; and on every input other than `i16::MAX` equals the saturating doubling
of the input saturating-added to `i16::MIN/2`. -/
theorem convert_half_axis_positive_spec (x : Int) (h1 : i16_min ≤ x)
    (h2 : x ≤ i16_max) :
    convert_half_axis_positive i16_max = i16_max ∧
    (x ≤ 0 → convert_half_axis_positive x = i16_min) ∧
    convert_half_axis_positive (Int.tdiv i16_max 2 + 1) = 0 ∧
    (x ≠ i16_max →
      convert_half_axis_positive x =
        i16_saturating_add (i16_saturating_add x (Int.tdiv i16_min 2))
          (i16_saturating_add x (Int.tdiv i16_min 2))) := by
  simp only [i16_min, i16_max] at h1 h2
  refine ⟨by decide, ?_, by decide, ?_⟩
  · intro hx
    have hne : x ≠ i16_max := by simp only [i16_max]; omega
    have htd2 : Int.tdiv (-32768 : Int) 2 = -16384 := by decide
    unfold convert_half_axis_positive
    rw [if_neg hne]
    simp only [i16_saturating_add, i16_min, i16_max, htd2]
    split_ifs <;> omega
  · intro hne
    unfold convert_half_axis_positive
    rw [if_neg hne]

/-- Claim C7 witness: the general branch at `-5` (mapping to `i16::MIN`) and
at `100` (the saturating-doubling formula). -/
theorem convert_half_axis_positive_spec_witness :
    convert_half_axis_positive (-5) = i16_min ∧
    convert_half_axis_positive 100 =
      i16_saturating_add (i16_saturating_add 100 (Int.tdiv i16_min 2))
        (i16_saturating_add 100 (Int.tdiv i16_min 2)) :=
  ⟨(convert_half_axis_positive_spec (-5) (by decide) (by decide)).2.1
      (by decide),
   (convert_half_axis_positive_spec 100 (by decide) (by decide)).2.2.2
      (by decide)⟩

/-- Claim C8: `convert_half_axis_negative` equals
`convert_half_axis_positive` applied to the negation of
`x.saturating_add(1)`, and in particular sends `i16::MAX` to `i16::MIN` and
`i16::MIN` to `i16::MAX`. -/
theorem convert_half_axis_negative_is_mirror (x : Int) :
    convert_half_axis_negative x =
      convert_half_axis_positive (-(i16_saturating_add x 1)) ∧
    convert_half_axis_negative i16_max = i16_min ∧
    convert_half_axis_negative i16_min = i16_max :=
  ⟨rfl, by decide, by decide⟩

/-- Claim C9: the analog-to-button collapse is a strict comparison against
the type's midpoint `(max + min) / 2`, which is 127 for `u8` (so 128 is the
first pressed value) and 0 for `i16`. -/
theorem convert_analog_to_button_spec (v8 : Nat) (v16 : Int) (h8 : v8 ≤ 255)
    (hlo : i16_min ≤ v16) (hhi : v16 ≤ i16_max) :
    whats_the_midpoint_of_u8 = 127 ∧
    whats_the_midpoint_of_i16 = 0 ∧
    (convert_analog_to_button_u8 v8 = true ↔ 127 < v8) ∧
    (convert_analog_to_button_i16 v16 = true ↔ 0 < v16) ∧
    convert_analog_to_button_u8 128 = true ∧
    convert_analog_to_button_u8 127 = false := by
  have hm8 : whats_the_midpoint_of_u8 = 127 := by decide
  have hm16 : whats_the_midpoint_of_i16 = 0 := by decide
  refine ⟨hm8, hm16, ?_, ?_, by decide, by decide⟩
  · simp [convert_analog_to_button_u8, hm8]
  · simp [convert_analog_to_button_i16, hm16]

/-- Claim C9 witness: the threshold applied at the concrete values 200
(`u8`, pressed) and -3 (`i16`, transported through the midpoint
comparison). -/
theorem convert_analog_to_button_spec_witness :
    convert_analog_to_button_u8 200 = true ∧
    (convert_analog_to_button_i16 (-3) = true ↔ (0 : Int) < -3) := by
  have h := convert_analog_to_button_spec 200 (-3) (by decide) (by decide)
    (by decide)
  exact ⟨h.2.2.1.mpr (by decide), h.2.2.2.1⟩

/-- Claim C10: because 1 is saturating-added before the negation, the
negation operand is never `i16::MIN`, so the overflow-checked variant of
`convert_half_axis_negative` returns a value (no panic) on every in-range
input, and it agrees with the total model. -/
theorem convert_half_axis_negative_no_overflow (x : Int) (h1 : i16_min ≤ x)
    (h2 : x ≤ i16_max) :
    i16_saturating_add x 1 ≠ i16_min ∧
    convert_half_axis_negative_checked x =
      some (convert_half_axis_negative x) := by
  simp only [i16_min, i16_max] at h1 h2
  have hne : i16_saturating_add x 1 ≠ i16_min := by
    simp only [i16_saturating_add, i16_min, i16_max]
    split_ifs <;> omega
  refine ⟨hne, ?_⟩
  unfold convert_half_axis_negative_checked i16_checked_neg
  rw [if_neg hne]
  rfl

/-- Claim C10 witness: no panic at the extreme input `i16::MIN`. -/
theorem convert_half_axis_negative_no_overflow_witness :
    i16_saturating_add i16_min 1 ≠ i16_min ∧
    convert_half_axis_negative_checked i16_min =
      some (convert_half_axis_negative i16_min) :=
  convert_half_axis_negative_no_overflow i16_min (by decide) (by decide)

end Omnishock
